import Mathlib

/-!
Verification of the image-generation pipeline of the ai-chatbot repository.

The development shallowly embeds the Aliyun Bailian image-generation adapter
(src/lib/ai/providers/aliyun, here: generateAliyunImage with its helpers
makeAPIRequest and attemptGeneration), the multi-model fallback orchestrator
(src/lib/ai/tools/generate-image.ts, the generateImage tool), and the hosting
POST route for image generation.  Network interactions are modelled as an
explicit environment: the submit response, the sequence of poll responses and
the download outcome are inputs, and every outbound request the code issues is
recorded in a trace of NetCall events.  Randomness (Math.random seeds) is an
oracle indexed by the retry count, and the registry-resolved model
configuration (getModelConfig / getAliyunModelConfig) is abstracted to the
maxRetries it yields per model name.
-/

namespace AIChatbot

/-- JS truthiness of an optional string: undefined/null and the empty string are falsy. -/
def truthy : Option String → Bool
  | none => false
  | some s => !(s == "")

/-- JS expression a || b for an optional string a and a string default b. -/
def strOr (a : Option String) (b : String) : String :=
  if truthy a then a.getD ("") else b

/-- JS expression a || b for optional strings on both sides. -/
def optOr (a b : Option String) : Option String :=
  if truthy a then a else b

/-- JS expression a || b for an optional number a: undefined and 0 are falsy. -/
def natOr (a : Option Nat) (b : Nat) : Nat :=
  match a with
  | some n => if n = 0 then b else n
  | none => b

/-- Decides whether the first character list is a prefix of the second. -/
def charsPfx : List Char → List Char → Bool
  | [], _ => true
  | _ :: _, [] => false
  | p :: ps, c :: cs => p == c && charsPfx ps cs

/-- Decides whether the first character list occurs inside the second. -/
def charsIn : List Char → List Char → Bool
  | pat, [] => charsPfx pat []
  | pat, c :: cs => charsPfx pat (c :: cs) || charsIn pat cs

/-- JS String.prototype.includes on the strings of this pipeline. -/
def strIncludes (s pat : String) : Bool := charsIn pat.data s.data

/-- JS String.prototype.startsWith on the strings of this pipeline. -/
def strStartsWith (s pfx : String) : Bool := charsPfx pfx.data s.data

/-- JS String.prototype.substring(0, n); the data handled here is ASCII, so
    code units and characters coincide. -/
def jsSubstring (s : String) (n : Nat) : String := String.mk (s.data.take n)

/-- Structured error carried by a generation result (code + message). -/
structure ErrorInfo where
  code : String
  message : String
deriving Repr, DecidableEq

/-- Result of the Aliyun provider.  imageData is always a string: a base64
    data URL on success, or the fixed placeholder payload on failure. -/
structure GenResult where
  imageData : String
  errorInfo : Option ErrorInfo
  model : Option String
deriving Repr, DecidableEq

/-- The fixed red placeholder image returned by getPlaceholderImage in
    src/lib/ai/providers/aliyun/common.ts (same base64 payload is inlined in
    the POST route for the no-image fallback). -/
def placeholderBase64 : String :=
  "iVBORw0KGgoAAAANSUhEUgAABAAAAAQACAIAAADwf7zUAAAACXBIWXMAAAsTAAALEwEAmpwYAAAAB3RJTUUH5wMHDjgUZRp0TgAAAB1pVFh0Q29tbWVudAAAAAAAQ3JlYXRlZCB3aXRoIEdJTVBkLmUHAAACHklEQVR42u3BAQEAAACCIP+vbkhAAQAAAAAAAAAAAAAAAAAAAAAAAAAAAAAAAAAAAAAAAAAAAAAAAAAAAAAAAAAAAAAAAAAAAAAAAAAAAAAAAAAAAAAAAAAAAAAAAAAAAAAAAAAAAAAAAAAAAAAAAAAAAAAAAAAAAAAAAAAAAAAAAAAAAAAAAAAAAAAAAAAAAAAAAAAAAAAAAAAAAAAAAAAAAAAAAAAAAAAAAAAAAAAAAAAAAAAAAAAAAAAAAAAAAAAAAAAAAAAAAAAAAAAAAAAAAAAAAAAAAAAAAAAAAAAAAAAAAAAAAAAAAAAAAAAAAAAAAAAAAAAAAAAAAAAAAAAAAAAAAAAAAAAAAAAAAAAAAAAAAAAAAAAAAAAAAAAAAAAAAAAAAAAAAAAAAAAAAAAAAAAAAAAAAAAAAAAAAAAAAAAAAAAAAAAAAAAAAAAAAAAAAAAAAAAAAAAAAAAAAAAAAAAAAAAAAAAAAAAAAAAAAAAAAAAAAAAAAAAAAAAAAAAAAAAAAAAAAAAAAAAAAAAAAAAAAAAAAAAAAAAAAAAAAAAAAAAAAAAAAAAAAAAAAAAAAAAAAAAAAAAAAAAAAAAAAAAAAAAAAAAAAAAAAAAAAAAAAAAAAAAAAAAAAAAAAAAAAAAAAAAAAAAAAAAAAAAAAAAAAAAAAAAALgGKgwAAWCn5qkAAAAASUVORK5CYII="

/-- Faithful translation of getPlaceholderImage from
    src/lib/ai/providers/aliyun/common.ts. -/
def getPlaceholderImage (errorCode errorMessage model : Option String) : GenResult :=
  { imageData := placeholderBase64,
    errorInfo :=
      if truthy errorCode then
        some { code := errorCode.getD (""), message := strOr errorMessage ("Unknown error") }
      else none,
    model := model }

/-- Relevant fields of a job-submission response body:
    code / message (immediate rejection) and output.task_id. -/
structure SubmitData where
  code : Option String
  message : Option String
  task_id : Option String
deriving Repr, DecidableEq

/-- Outcome of the submission POST: a response body, an HTTP error
    (error.response present, with status and response message), or a
    network error (error.code / error.message only). -/
inductive SubmitOutcome
  | ok (data : SubmitData)
  | httpErr (status : Nat) (respMessage : Option String)
  | netErr (code : Option String) (message : Option String)
deriving Repr, DecidableEq

/-- Relevant fields of a task-status response body: output.task_status,
    output.code, output.message and output.results[0].url. -/
structure StatusOutput where
  task_status : Option String
  code : Option String
  message : Option String
  result_url : Option String
deriving Repr, DecidableEq

/-- Outcome of one status-check GET inside the poll loop: a response body, or
    a transport error (the thrown error is only logged by the code). -/
inductive PollOutcome
  | ok (data : StatusOutput)
  | transportError
deriving Repr, DecidableEq

/-- Outcome of downloading the generated image.  On success the environment
    supplies the base64 encoding of the downloaded bytes (the code converts
    the arraybuffer with Buffer.toString). -/
inductive DownloadOutcome
  | ok (base64Data : String)
  | failed
deriving Repr, DecidableEq

/-- Environment for one makeAPIRequest call: the submission outcome, the
    stream of poll outcomes (indexed by the retry counter) and the download
    outcome. -/
structure CallEnv where
  submit : SubmitOutcome
  polls : Nat → PollOutcome
  download : DownloadOutcome

/-- Environment for one generateAliyunImage call: the Math.random seed draws
    and the per-attempt call environments, both indexed by the internal-error
    retry count of the attempt. -/
structure AliyunEnv where
  rng : Nat → Nat
  calls : Nat → CallEnv

/-- Input fields of the request body built by attemptGeneration. -/
structure RequestInput where
  prompt : String
  negative_prompt : String
deriving Repr, DecidableEq

/-- Parameters field of the request body built by attemptGeneration. -/
structure RequestParameters where
  size : String
  seed : Nat
  steps : Nat
deriving Repr, DecidableEq

/-- The JSON body posted to the image-synthesis endpoint. -/
structure RequestBody where
  model : String
  input : RequestInput
  parameters : RequestParameters
deriving Repr, DecidableEq

/-- One outbound network request issued by the pipeline. -/
inductive NetCall
  | submit (model : String) (body : RequestBody)
  | pollStatus (taskId : String)
  | download (url : String)
deriving Repr, DecidableEq

/-- Mutable state of the poll loop in makeAPIRequest (retries, taskStatus,
    taskResult, errorCode, errorMessage, lastApiResponse). -/
structure PollState where
  retries : Nat
  taskStatus : String
  taskResult : Option String
  errorCode : String
  errorMessage : String
  lastApiResponse : Option StatusOutput
deriving Repr, DecidableEq

/-- Initial poll-loop state. -/
def initPollState : PollState :=
  { retries := 0, taskStatus := "PENDING", taskResult := none,
    errorCode := "", errorMessage := "", lastApiResponse := none }

/-- The upstream message identifying the transient tensor-device fault. -/
def tensorDeviceMessage : String := "Expected all tensors to be on the same device"

/-- One iteration of the poll loop after the status-check request returned:
    the state transformation of the loop body.  The two break statements of
    the source leave the loop with a FAILED or SUCCEEDED status, which also
    falsifies the loop guard, so a break is modelled as not incrementing the
    retry counter and letting the guard exit on the next check. -/
def pollIter (maxRetries : Nat) (st : PollState) : PollOutcome → PollState
  | PollOutcome.transportError =>
    -- the transport error is logged and counted as a consumed retry
    { st with retries := st.retries + 1 }
  | PollOutcome.ok data =>
    let status := strOr data.task_status ("FAILED")
    -- errorCode and errorMessage are captured exactly when the status is FAILED
    let st2 : PollState :=
      { retries := st.retries,
        taskStatus := status,
        taskResult := st.taskResult,
        errorCode := if status = "FAILED" then strOr data.code ("UNKNOWN_ERROR") else st.errorCode,
        errorMessage := if status = "FAILED" then strOr data.message ("Unknown error") else st.errorMessage,
        lastApiResponse := some data }
    if status = "FAILED" ∧ st2.errorCode = "InternalError.Algo" ∧
        strIncludes st2.errorMessage tensorDeviceMessage = true ∧
        st.retries < maxRetries - 1 then
      -- break: the outer function will retry with a different seed
      st2
    else if status = "SUCCEEDED" then
      -- capture the result URL, then break
      { st2 with taskResult := data.result_url }
    else
      { st2 with retries := st2.retries + 1 }

/-- The poll loop of makeAPIRequest, fuel-indexed (the loop guard bounds the
    retry counter, so fuel equal to maxRetries is exhaustive).  Returns the
    final state, the status-check requests issued, and the waits (in
    milliseconds, as exact rationals) performed before each status check. -/
def pollGo (maxRetries : Nat) (taskId : String) (polls : Nat → PollOutcome) :
    Nat → PollState → PollState × List NetCall × List ℚ
  | 0, st => (st, [], [])
  | fuel + 1, st =>
    if st.retries < maxRetries ∧ (st.taskStatus = "PENDING" ∨ st.taskStatus = "RUNNING") then
      -- await sleep(1000 * Math.pow(1.5, retries)), then the status check
      let next := pollGo maxRetries taskId polls fuel (pollIter maxRetries st (polls st.retries))
      (next.1, NetCall.pollStatus taskId :: next.2.1,
       (1000 * (3 / 2 : ℚ) ^ st.retries) :: next.2.2)
    else (st, [], [])

/-- The poll loop, entered with the initial state and enough fuel. -/
def pollLoop (maxRetries : Nat) (taskId : String) (polls : Nat → PollOutcome) :
    PollState × List NetCall × List ℚ :=
  pollGo maxRetries taskId polls maxRetries initPollState

/-- The soft-timeout message produced when the retry budget is exhausted. -/
def stillProcessingMessage (modelName : String) : String :=
  "The model " ++ modelName ++ " is still processing the image. This may take longer than expected. Try again later."

/-- The final else branch of the result handling: surfaces the captured error
    code and message, defaulting to TIMEOUT_ERROR. -/
def fallbackFailure (st : PollState) (modelName : String) : GenResult × List NetCall :=
  (getPlaceholderImage
      (some (if st.errorCode = "" then "TIMEOUT_ERROR" else st.errorCode))
      (some (if st.errorMessage = "" then "Task did not complete within time limit" else st.errorMessage))
      (some modelName), [])

/-- The re-extraction branch: the task SUCCEEDED but taskResult was not set,
    so the image URL is extracted again from the last seen raw status
    response; a found URL is downloaded, otherwise NO_IMAGE_URL is returned. -/
def materializeFromLast (callEnv : CallEnv) (modelName : String) (last : StatusOutput) :
    GenResult × List NetCall :=
  let imageUrl := last.result_url
  if truthy imageUrl = true then
    match callEnv.download with
    | DownloadOutcome.ok b64 =>
      ({ imageData := "data:image/png;base64," ++ b64, errorInfo := none, model := some modelName },
       [NetCall.download (imageUrl.getD (""))])
    | DownloadOutcome.failed =>
      (getPlaceholderImage (some ("IMAGE_DOWNLOAD_ERROR")) (some ("Failed to download image"))
        (some modelName), [NetCall.download (imageUrl.getD (""))])
  else
    (getPlaceholderImage (some ("NO_IMAGE_URL")) (some ("No image URL found in successful response"))
      (some modelName), [])

/-- Result handling after the poll loop of makeAPIRequest: download on
    SUCCEEDED with a captured URL, re-extract from the last response on
    SUCCEEDED without one, STILL_PROCESSING on a pending/running timeout, and
    the captured error otherwise. -/
def materialize (callEnv : CallEnv) (modelName : String) (st : PollState) :
    GenResult × List NetCall :=
  if st.taskStatus = "SUCCEEDED" ∧ truthy st.taskResult = true then
    match callEnv.download with
    | DownloadOutcome.ok b64 =>
      ({ imageData := "data:image/png;base64," ++ b64, errorInfo := none, model := some modelName },
       [NetCall.download (st.taskResult.getD (""))])
    | DownloadOutcome.failed =>
      (getPlaceholderImage (some ("IMAGE_DOWNLOAD_ERROR")) (some ("Failed to download image"))
        (some modelName), [NetCall.download (st.taskResult.getD (""))])
  else if st.taskStatus = "SUCCEEDED" then
    match st.lastApiResponse with
    | some last => materializeFromLast callEnv modelName last
    | none => fallbackFailure st modelName
  else if st.taskStatus = "RUNNING" ∨ st.taskStatus = "PENDING" then
    (getPlaceholderImage (some ("STILL_PROCESSING"))
      (some (stillProcessingMessage modelName)) (some modelName), [])
  else fallbackFailure st modelName

/-- Faithful translation of makeAPIRequest from the Aliyun provider.
    getMaxRetries abstracts getModelConfig(modelName, Provider.ALIYUN) to the
    maxRetries it resolves for the model. -/
def makeAPIRequest (getMaxRetries : String → Nat) (callEnv : CallEnv)
    (requestBody : RequestBody) (modelName : String) : GenResult × List NetCall :=
  match callEnv.submit with
  | SubmitOutcome.ok data =>
    if truthy data.code = true then
      (getPlaceholderImage data.code data.message (some modelName),
       [NetCall.submit modelName requestBody])
    else if truthy data.task_id = false then
      (getPlaceholderImage (some ("NO_TASK_ID")) (some ("No task ID returned from API"))
        (some modelName), [NetCall.submit modelName requestBody])
    else
      let taskId := data.task_id.getD ("")
      let maxRetries := getMaxRetries modelName
      let polled := pollLoop maxRetries taskId callEnv.polls
      let mat := materialize callEnv modelName polled.1
      (mat.1, NetCall.submit modelName requestBody :: (polled.2.1 ++ mat.2))
  | SubmitOutcome.httpErr status respMessage =>
    if status = 400 ∧ strStartsWith modelName ("wanx") = true then
      (getPlaceholderImage (some ("WANX_MODEL_ERROR"))
        (some ("This Wanx model is temporarily unavailable. The server returned a 400 error."))
        (some modelName), [NetCall.submit modelName requestBody])
    else
      (getPlaceholderImage (some ("HTTP_ERROR_" ++ toString status))
        (some ("Server returned HTTP " ++ toString status ++ ": " ++ strOr respMessage ("Unknown error")))
        (some modelName), [NetCall.submit modelName requestBody])
  | SubmitOutcome.netErr code message =>
    (getPlaceholderImage (some (strOr code ("API_REQUEST_ERROR")))
      (some (strOr message ("Request failed"))) (some modelName),
     [NetCall.submit modelName requestBody])

/-- Parameters accepted by generateAliyunImage. -/
structure AliyunParams where
  prompt : String
  negative_prompt : Option String
  width : Option Nat
  height : Option Nat
  model : Option String
  seed : Option Nat
  steps : Option Nat
  num_inference_steps : Option Nat
deriving Repr

/-- Static configuration read from the environment. -/
structure EnvConfig where
  ALIYUN_FLUX_MODEL : String
  ALIYUN_WANX_MODELS : List String
deriving Repr

/-- The seed chosen by attemptGeneration: a fresh random draw on a retry,
    otherwise the caller seed when truthy, else a random draw. -/
def buildSeed (rng : Nat → Nat) (params : AliyunParams) (internalErrorRetryCount : Nat) : Nat :=
  if internalErrorRetryCount > 0 then rng internalErrorRetryCount
  else natOr params.seed (rng internalErrorRetryCount)

/-- The request body built by attemptGeneration: model, input (prompt and
    defaulted negative prompt) and parameters (size string, seed, steps). -/
def buildRequestBody (cfg : EnvConfig) (rng : Nat → Nat) (params : AliyunParams)
    (internalErrorRetryCount : Nat) : RequestBody :=
  let model := strOr params.model cfg.ALIYUN_FLUX_MODEL
  let size := toString (natOr params.width 1024) ++ "*" ++ toString (natOr params.height 1024)
  { model := model,
    input := { prompt := params.prompt, negative_prompt := strOr params.negative_prompt ("") },
    parameters :=
    { size := size,
      seed := buildSeed rng params internalErrorRetryCount,
      steps := natOr params.steps (natOr params.num_inference_steps 20) } }

/-- Faithful translation of attemptGeneration.  For wanx models the source
    copies the request body by spreading it with no extra fields, so both
    branches post the same body. -/
def attemptGeneration (cfg : EnvConfig) (getMaxRetries : String → Nat) (aenv : AliyunEnv)
    (params : AliyunParams) (internalErrorRetryCount : Nat) : GenResult × List NetCall :=
  let model := strOr params.model cfg.ALIYUN_FLUX_MODEL
  let requestBody := buildRequestBody cfg aenv.rng params internalErrorRetryCount
  if strStartsWith model ("wanx") = true then
    makeAPIRequest getMaxRetries (aenv.calls internalErrorRetryCount) requestBody model
  else
    makeAPIRequest getMaxRetries (aenv.calls internalErrorRetryCount) requestBody model

/-- The transient tensor-device fault signature checked by the retry loop
    and by the orchestrator. -/
def isTensorDeviceError (e : Option ErrorInfo) : Bool :=
  match e with
  | some err => err.code == "InternalError.Algo" && strIncludes err.message tensorDeviceMessage
  | none => false

/-- Maximum number of retries for internal errors in generateAliyunImage. -/
def MAX_INTERNAL_ERROR_RETRIES : Nat := 3

/-- The internal-error retry loop of generateAliyunImage, fuel-indexed (the
    guard bounds the count by MAX_INTERNAL_ERROR_RETRIES, so that much fuel
    is exhaustive).  Accumulates the traces of all attempts. -/
def retryLoop (cfg : EnvConfig) (getMaxRetries : String → Nat) (aenv : AliyunEnv)
    (params : AliyunParams) :
    Nat → Nat → GenResult × List NetCall → GenResult × List NetCall
  | 0, _, acc => acc
  | fuel + 1, count, acc =>
    if count < MAX_INTERNAL_ERROR_RETRIES ∧ isTensorDeviceError acc.1.errorInfo = true then
      let count1 := count + 1
      let attempt := attemptGeneration cfg getMaxRetries aenv params count1
      retryLoop cfg getMaxRetries aenv params fuel count1 (attempt.1, acc.2 ++ attempt.2)
    else acc

/-- Faithful translation of generateAliyunImage: an initial attempt followed
    by the internal-error retry loop. -/
def generateAliyunImage (cfg : EnvConfig) (getMaxRetries : String → Nat) (aenv : AliyunEnv)
    (params : AliyunParams) : GenResult × List NetCall :=
  retryLoop cfg getMaxRetries aenv params MAX_INTERNAL_ERROR_RETRIES 0
    (attemptGeneration cfg getMaxRetries aenv params 0)

/-- One recorded per-model error of the fallback orchestrator. -/
structure ModelError where
  model : String
  error : ErrorInfo
deriving Repr, DecidableEq

/-- Structured error of the tool result: the composite failure carries the
    accumulated per-model errors, the size-validation failure does not. -/
structure ToolErrorInfo where
  code : String
  message : String
  allErrors : Option (List ModelError)
deriving Repr, DecidableEq

/-- The object returned by the execute function of the generateImage tool. -/
structure ToolResult where
  imageData : Option String
  success : Bool
  message : String
  model : Option String
  imageId : Option String
  errorInfo : Option ToolErrorInfo
deriving Repr, DecidableEq

/-- The fixed allowed-size list of the generateImage tool. -/
def availableSizes : List (Nat × Nat) :=
  [(1024, 1024), (768, 1024), (1024, 768), (768, 512), (512, 768), (1024, 576),
   (576, 1024), (1280, 720), (720, 1280), (960, 960), (1088, 832), (832, 1088)]

/-- The allowed sizes rendered for the size-validation message. -/
def sizesListText : String :=
  String.intercalate (", ") (availableSizes.map (fun s => toString s.1 ++ "x" ++ toString s.2))

/-- The response returned by the tool on size-validation failure. -/
def invalidSizeResult (w h : Nat) : ToolResult :=
  { imageData := none,
    success := false,
    message := "Invalid image size: " ++ toString w ++ "x" ++ toString h ++
      ". Please use one of the following sizes: " ++ sizesListText,
    model := none,
    imageId := none,
    errorInfo := some
      { code := "INVALID_SIZE",
        message := "Invalid image size: " ++ toString w ++ "x" ++ toString h,
        allErrors := none } }

/-- The prioritized candidate list of the tool: the user-selected model (with
    the Wanx spelling correction) when given, else the flux model followed by
    all wanx models. -/
def modelsToTry (cfg : EnvConfig) (model : Option String) : List String :=
  if truthy model = true then
    if model.getD ("") = "Wanx" ∧ 0 < cfg.ALIYUN_WANX_MODELS.length then
      [cfg.ALIYUN_WANX_MODELS.headD ("")]
    else [model.getD ("")]
  else cfg.ALIYUN_FLUX_MODEL :: cfg.ALIYUN_WANX_MODELS

/-- The provider parameters the tool passes for one candidate model. -/
def toolAliyunParams (prompt : String) (negative_prompt : Option String)
    (rw rh : Nat) (m : String) : AliyunParams :=
  { prompt := prompt, negative_prompt := negative_prompt,
    width := some rw, height := some rh, model := some m,
    seed := none, steps := none, num_inference_steps := none }

/-- Environment of one tool execution: an Aliyun environment and a generated
    UUID per candidate-model attempt. -/
structure ToolEnv where
  aliyun : Nat → AliyunEnv
  uuid : Nat → String

/-- The provider call the tool performs for the candidate at the given
    position of the candidate list. -/
def toolAttempt (cfg : EnvConfig) (getMaxRetries : String → Nat) (tenv : ToolEnv)
    (prompt : String) (negative_prompt : Option String) (rw rh : Nat)
    (idx : Nat) (m : String) : GenResult × List NetCall :=
  generateAliyunImage cfg getMaxRetries (tenv.aliyun idx)
    (toolAliyunParams prompt negative_prompt rw rh m)

/-- The success response of the tool: the image data is truncated to its
    first 100000 characters. -/
def successToolResult (imageData : String) (m : String) (uuid : String) : ToolResult :=
  { imageData := some (jsSubstring imageData 100000),
    success := true,
    message := "Image generated successfully",
    model := some m,
    imageId := some uuid,
    errorInfo := none }

/-- The server-side failure message used when the tensor-device signature was
    recorded: it clarifies that the failure is not due to the caller input. -/
def serverModelErrorMessage : String :=
  "The image generation service is currently experiencing technical issues with its AI models. This is a server-side problem, not an issue with your prompt. Please try again later or try a different prompt."

/-- The generic composite failure message. -/
def allModelsFailedMessage : String :=
  "Failed to generate image with all available models."

/-- The composite failure built after every candidate model failed,
    special-casing the transient tensor-device signature. -/
def allFailedResult (allErrors : List ModelError) : ToolResult :=
  let hasTensorError := allErrors.any (fun e => isTensorDeviceError (some e.error))
  let errorMessage :=
    if hasTensorError = true then serverModelErrorMessage
    else allModelsFailedMessage
  let errorCode := if hasTensorError = true then "SERVER_MODEL_ERROR" else "ALL_MODELS_FAILED"
  { imageData := none,
    success := false,
    message := errorMessage,
    model := none,
    imageId := none,
    errorInfo := some { code := errorCode, message := errorMessage, allErrors := some allErrors } }

/-- The candidate-iteration loop of the tool: stops at the first success,
    accumulates one error entry per failed model, and builds the composite
    failure once the list is exhausted. -/
def toolLoop (cfg : EnvConfig) (getMaxRetries : String → Nat) (tenv : ToolEnv)
    (prompt : String) (negative_prompt : Option String) (rw rh : Nat) :
    List String → Nat → List ModelError → List NetCall → ToolResult × List NetCall
  | [], _, allErrors, trace => (allFailedResult allErrors, trace)
  | m :: rest, idx, allErrors, trace =>
    let attempt := toolAttempt cfg getMaxRetries tenv prompt negative_prompt rw rh idx m
    match attempt.1.errorInfo with
    | none => (successToolResult attempt.1.imageData m (tenv.uuid idx), trace ++ attempt.2)
    | some e =>
      toolLoop cfg getMaxRetries tenv prompt negative_prompt rw rh rest (idx + 1)
        (allErrors ++ [{ model := m, error := e }]) (trace ++ attempt.2)

/-- Faithful translation of the execute function of the generateImage tool in
    src/lib/ai/tools/generate-image.ts: size defaulting and validation, then
    the multi-model fallback loop. -/
def generateImageExecute (cfg : EnvConfig) (getMaxRetries : String → Nat) (tenv : ToolEnv)
    (prompt : String) (negative_prompt : Option String)
    (width height : Option Nat) (model : Option String) : ToolResult × List NetCall :=
  let requestWidth := natOr width 1024
  let requestHeight := natOr height 1024
  let isValidSize := availableSizes.any (fun s => s.1 == requestWidth && s.2 == requestHeight)
  if isValidSize = false then (invalidSizeResult requestWidth requestHeight, [])
  else
    toolLoop cfg getMaxRetries tenv prompt negative_prompt requestWidth requestHeight
      (modelsToTry cfg model) 0 [] []

/-- Response of the image-generation POST route: 401 for a missing session,
    400 for a missing prompt, otherwise the JSON payload. -/
inductive RouteResponse
  | unauthorized
  | invalidPrompt
  | ok (imageData : String) (isPlaceholder : Bool) (message : String)
      (model : Option String) (errorInfo : Option ErrorInfo)
deriving Repr, DecidableEq

/-- The route message for an internal upstream error. -/
def routeInternalErrorMessage : String :=
  "The Aliyun Bailian API encountered an internal server error. This is not an issue with your API key or settings. Using placeholder image."

/-- The route strips a leading data-image-base64 marker from the payload; the
    data URLs this pipeline produces all use the png content type, so the
    regex of the source reduces to this check. -/
def stripDataUrl (s : String) : String :=
  if strStartsWith s ("data:image/png;base64,") = true then
    String.mk (s.data.drop ("data:image/png;base64,").length)
  else s

/-- Faithful translation of the POST route for image generation: it validates
    authentication and the prompt, calls generateAliyunImage with the request
    parameters as given (no size validation), and shapes the JSON response.
    The body is taken as already parsed. -/
def postRoute (cfg : EnvConfig) (getMaxRetries : String → Nat) (aenv : AliyunEnv)
    (authed : Bool) (prompt : String) (negative_prompt : Option String)
    (width height : Option Nat) (model : Option String) : RouteResponse × List NetCall :=
  if authed = false then (RouteResponse.unauthorized, [])
  else if prompt = "" then (RouteResponse.invalidPrompt, [])
  else
    let generated := generateAliyunImage cfg getMaxRetries aenv
      { prompt := prompt, negative_prompt := negative_prompt, width := width, height := height,
        model := model, seed := none, steps := none, num_inference_steps := none }
    let imageData := generated.1.imageData
    let usedModel := generated.1.model
    let isPlaceholder0 : Bool := imageData == "" || decide (imageData.length < 100)
    let message0 :=
      if isPlaceholder0 = true then
        "API authentication failed. Please check your Aliyun API key or contact the administrator. Using placeholder image."
      else
        "Image generated successfully using model: " ++ strOr usedModel (strOr model ("default"))
    let adjusted :=
      match generated.1.errorInfo with
      | some e =>
        if e.code = "InternalError.Algo" then
          (routeInternalErrorMessage, isPlaceholder0)
        else if e.code = "STILL_PROCESSING" then
          -- the template literal renders an absent model as the text undefined
          (if e.message = "" then stillProcessingMessage (strOr usedModel (strOr model ("undefined")))
           else e.message, false)
        else
          ("API error (" ++ e.code ++ "): " ++ e.message ++ ". Using placeholder image.", isPlaceholder0)
      | none => (message0, isPlaceholder0)
    if imageData = "" then
      (RouteResponse.ok placeholderBase64 true ("Failed to generate image.")
        (optOr usedModel model)
        (some (generated.1.errorInfo.getD
          { code := "API_ERROR",
            message := "The image generation API failed to return a valid image." })), generated.2)
    else
      (RouteResponse.ok (stripDataUrl imageData) adjusted.2 adjusted.1
        (optOr usedModel model) generated.1.errorInfo, generated.2)

/-- Projection of the error code carried by a route response. -/
def routeErrorCode : RouteResponse → Option String
  | RouteResponse.ok _ _ _ _ (some e) => some e.code
  | _ => none

/-!  Concrete fixtures used to instantiate theorems on closed inputs. -/

/-- Fixture configuration: the flux model and one wanx alternate. -/
def fixCfg : EnvConfig :=
  { ALIYUN_FLUX_MODEL := "flux-schnell", ALIYUN_WANX_MODELS := ["wanx2.1-t2i-turbo"] }

/-- Fixture status body for a job that is still pending. -/
def fixPending : StatusOutput :=
  { task_status := some ("PENDING"), code := none, message := none, result_url := none }

/-- Fixture status body reporting the transient tensor-device fault. -/
def fixTensorFailed : StatusOutput :=
  { task_status := some ("FAILED"), code := some ("InternalError.Algo"),
    message := some tensorDeviceMessage, result_url := none }

/-- Fixture status body for a job that succeeded with a result URL. -/
def fixSucceeded : StatusOutput :=
  { task_status := some ("SUCCEEDED"), code := none, message := none,
    result_url := some ("https://host/image.png") }

/-- Fixture call environment whose submission is accepted and whose job never
    leaves PENDING. -/
def fixEnvPending : CallEnv :=
  { submit := SubmitOutcome.ok { code := none, message := none, task_id := some ("t1") },
    polls := fun _ => PollOutcome.ok fixPending,
    download := DownloadOutcome.failed }

/-- Fixture call environment whose job reports the tensor-device fault. -/
def fixEnvTensor : CallEnv :=
  { submit := SubmitOutcome.ok { code := none, message := none, task_id := some ("t1") },
    polls := fun _ => PollOutcome.ok fixTensorFailed,
    download := DownloadOutcome.failed }

/-- Fixture call environment whose submission response has no task id. -/
def fixEnvNoTask : CallEnv :=
  { submit := SubmitOutcome.ok { code := none, message := none, task_id := none },
    polls := fun _ => PollOutcome.transportError,
    download := DownloadOutcome.failed }

/-- Fixture call environment whose submission is rejected with a code. -/
def fixEnvRejected : CallEnv :=
  { submit := SubmitOutcome.ok
      { code := some ("Throttling"), message := some ("Requests throttled"), task_id := none },
    polls := fun _ => PollOutcome.transportError,
    download := DownloadOutcome.failed }

/-- Fixture call environment whose job succeeds and whose download works. -/
def fixEnvSuccess : CallEnv :=
  { submit := SubmitOutcome.ok { code := none, message := none, task_id := some ("t1") },
    polls := fun _ => PollOutcome.ok fixSucceeded,
    download := DownloadOutcome.ok ("QUJD") }

/-- Fixture Aliyun environment built from one call environment, with a
    constant random oracle. -/
def fixAenv (c : CallEnv) : AliyunEnv :=
  { rng := fun _ => 7, calls := fun _ => c }

/-- Fixture provider parameters: a prompt with no explicit seed or steps. -/
def fixParams : AliyunParams :=
  { prompt := "a cat", negative_prompt := none, width := some 1024, height := some 768,
    model := none, seed := none, steps := none, num_inference_steps := none }

/-- Fixture tool environment built from one call environment. -/
def fixTenv (c : CallEnv) : ToolEnv :=
  { aliyun := fun _ => fixAenv c, uuid := fun _ => "image-uuid" }

/-- The request body submitted for the fixture parameters: note the asterisk
    separator of the size string and the seed taken from the random oracle. -/
def fixBody : RequestBody :=
  { model := "flux-schnell",
    input := { prompt := "a cat", negative_prompt := "" },
    parameters := { size := "1024*768", seed := 7, steps := 20 } }

/-- The request body the POST route fixture submits for a 999 by 999 request:
    no size validation happened on this path. -/
def fixBody999 : RequestBody :=
  { model := "flux-schnell",
    input := { prompt := "a cat", negative_prompt := "" },
    parameters := { size := "999*999", seed := 7, steps := 20 } }

/-- Fixture poll-loop state: the job succeeded but no result URL was captured,
    while the last raw response carries one (exercises the re-extraction
    contract of the materializer on its own inputs). -/
def fixStateNoUrl : PollState :=
  { retries := 2, taskStatus := "SUCCEEDED", taskResult := none,
    errorCode := "", errorMessage := "", lastApiResponse := some fixSucceeded }

/-!  Helper lemmas. -/

/-- A state whose status is no longer PENDING or RUNNING makes the poll loop
    exit immediately. -/
theorem pollGo_stop (maxRetries : Nat) (taskId : String) (polls : Nat → PollOutcome)
    (fuel : Nat) (st : PollState)
    (h : ¬ (st.taskStatus = "PENDING" ∨ st.taskStatus = "RUNNING")) :
    pollGo maxRetries taskId polls fuel st = (st, [], []) := by
  cases fuel with
  | zero => rfl
  | succ fuel =>
    rw [pollGo, if_neg]
    intro hc
    exact h hc.2

/-- Each loop iteration either increments the retry counter by exactly one,
    or produces a state whose status exits the loop (a break). -/
theorem pollIter_cases (maxRetries : Nat) (st : PollState) (out : PollOutcome) :
    (pollIter maxRetries st out).retries = st.retries + 1 ∨
      ¬ ((pollIter maxRetries st out).taskStatus = "PENDING" ∨
         (pollIter maxRetries st out).taskStatus = "RUNNING") := by
  cases out with
  | transportError => left; rfl
  | ok data =>
    rw [pollIter]
    dsimp only
    split_ifs <;>
      first
        | (left; rfl)
        | (right; simp_all)

/-- The wait recorded at position n of the poll loop is the backoff formula
    evaluated at the retry counter the loop entered that iteration with. -/
theorem pollGo_waits_getD (maxRetries : Nat) (taskId : String) (polls : Nat → PollOutcome) :
    ∀ (fuel : Nat) (st : PollState) (n : Nat),
      n < (pollGo maxRetries taskId polls fuel st).2.2.length →
      (pollGo maxRetries taskId polls fuel st).2.2.getD n 0
        = 1000 * (3 / 2 : ℚ) ^ (st.retries + n) := by
  intro fuel
  induction fuel with
  | zero => intro st n h; simp [pollGo] at h
  | succ fuel ih =>
    intro st n
    rw [pollGo]
    by_cases hc : st.retries < maxRetries ∧ (st.taskStatus = "PENDING" ∨ st.taskStatus = "RUNNING")
    · rw [if_pos hc]
      dsimp only
      intro h
      cases n with
      | zero => simp
      | succ n =>
        simp only [List.getD_cons_succ, List.length_cons, Nat.succ_lt_succ_iff] at h ⊢
        rcases pollIter_cases maxRetries st (polls st.retries) with hr | hstop
        · rw [ih _ n h, hr]
          ring
        · rw [pollGo_stop maxRetries taskId polls fuel _ hstop] at h
          simp at h
    · rw [if_neg hc]
      intro h
      simp at h

/-- The poll loop records at most fuel-many waits. -/
theorem pollGo_waits_length (maxRetries : Nat) (taskId : String) (polls : Nat → PollOutcome) :
    ∀ (fuel : Nat) (st : PollState),
      (pollGo maxRetries taskId polls fuel st).2.2.length ≤ fuel := by
  intro fuel
  induction fuel with
  | zero => intro st; simp [pollGo]
  | succ fuel ih =>
    intro st
    rw [pollGo]
    split
    · dsimp only
      simpa using ih _
    · simp

/-- If the loop still reports a PENDING or RUNNING status with enough fuel,
    the retry budget was exhausted. -/
theorem pollGo_exhausted (maxRetries : Nat) (taskId : String) (polls : Nat → PollOutcome) :
    ∀ (fuel : Nat) (st : PollState),
      maxRetries ≤ fuel + st.retries →
      ((pollGo maxRetries taskId polls fuel st).1.taskStatus = "PENDING" ∨
       (pollGo maxRetries taskId polls fuel st).1.taskStatus = "RUNNING") →
      maxRetries ≤ (pollGo maxRetries taskId polls fuel st).1.retries := by
  intro fuel
  induction fuel with
  | zero =>
    intro st hf _
    simpa [pollGo] using hf
  | succ fuel ih =>
    intro st hf
    rw [pollGo]
    by_cases hc : st.retries < maxRetries ∧ (st.taskStatus = "PENDING" ∨ st.taskStatus = "RUNNING")
    · rw [if_pos hc]
      dsimp only
      intro hfin
      rcases pollIter_cases maxRetries st (polls st.retries) with hr | hstop
      · exact ih _ (by omega) hfin
      · rw [pollGo_stop maxRetries taskId polls fuel _ hstop] at hfin
        exact absurd hfin hstop
    · rw [if_neg hc]
      intro hfin
      dsimp only
      rcases not_and_or.mp hc with hlt | hstat
      · omega
      · exact absurd hfin hstat

/-- Every attempt posts exactly one submission first, carrying the resolved
    model and the request body built from the parameters. -/
theorem attemptGeneration_head (cfg : EnvConfig) (gmr : String → Nat) (aenv : AliyunEnv)
    (params : AliyunParams) (count : Nat) :
    (attemptGeneration cfg gmr aenv params count).2.head?
      = some (NetCall.submit (strOr params.model cfg.ALIYUN_FLUX_MODEL)
          (buildRequestBody cfg aenv.rng params count)) := by
  rw [attemptGeneration]
  rw [ite_self, makeAPIRequest]
  cases hsub : (aenv.calls count).submit with
  | ok data =>
    dsimp only
    split_ifs <;> rfl
  | httpErr status respMessage =>
    dsimp only
    split_ifs <;> rfl
  | netErr code message => rfl

/-- A submission response carrying a task identifier proceeds to polling and
    materialization. -/
theorem makeAPIRequest_ok_task (gmr : String → Nat) (callEnv : CallEnv)
    (body : RequestBody) (modelName : String) (data : SubmitData)
    (hs : callEnv.submit = SubmitOutcome.ok data)
    (hcode : truthy data.code = false)
    (htask : truthy data.task_id = true) :
    makeAPIRequest gmr callEnv body modelName
      = ((materialize callEnv modelName
            (pollLoop (gmr modelName) (data.task_id.getD ("")) callEnv.polls).1).1,
         NetCall.submit modelName body ::
           ((pollLoop (gmr modelName) (data.task_id.getD ("")) callEnv.polls).2.1
             ++ (materialize callEnv modelName
                   (pollLoop (gmr modelName) (data.task_id.getD ("")) callEnv.polls).1).2)) := by
  rw [makeAPIRequest, hs]
  dsimp only
  rw [if_neg (by simp [hcode]), if_neg (by simp [htask])]

/-- The retry loop returns its accumulator unchanged when the current result
    does not match the transient fault signature. -/
theorem retryLoop_stop (cfg : EnvConfig) (gmr : String → Nat) (aenv : AliyunEnv)
    (params : AliyunParams) (fuel count : Nat) (acc : GenResult × List NetCall)
    (h : isTensorDeviceError acc.1.errorInfo = false) :
    retryLoop cfg gmr aenv params fuel count acc = acc := by
  cases fuel with
  | zero => rfl
  | succ fuel =>
    rw [retryLoop, if_neg]
    intro hc
    rw [h] at hc
    exact Bool.false_ne_true hc.2

/-- C4: within one job submission, the wait before status-check attempt n
    (0-indexed, for every n at which a wait is performed, starting at n = 0)
    is exactly 1000 times 1.5 to the n milliseconds, successive waits are
    strictly increasing, and at most maxRetries waits occur. -/
theorem c4_poll_backoff (maxRetries : Nat) (taskId : String) (polls : Nat → PollOutcome)
    (n : Nat) (hn : n < (pollLoop maxRetries taskId polls).2.2.length) :
    (pollLoop maxRetries taskId polls).2.2.getD n 0 = 1000 * (3 / 2 : ℚ) ^ n
    ∧ (∀ m, m < n →
        (pollLoop maxRetries taskId polls).2.2.getD m 0
          < (pollLoop maxRetries taskId polls).2.2.getD n 0)
    ∧ (pollLoop maxRetries taskId polls).2.2.length ≤ maxRetries := by
  have e1 := pollGo_waits_getD maxRetries taskId polls maxRetries initPollState n hn
  simp only [initPollState, Nat.zero_add] at e1
  have e1' : (pollLoop maxRetries taskId polls).2.2.getD n 0 = 1000 * (3 / 2 : ℚ) ^ n := e1
  refine ⟨e1', ?_, pollGo_waits_length maxRetries taskId polls maxRetries initPollState⟩
  intro m hmn
  have hm : m < (pollLoop maxRetries taskId polls).2.2.length := lt_trans hmn hn
  have e2 := pollGo_waits_getD maxRetries taskId polls maxRetries initPollState m hm
  simp only [initPollState, Nat.zero_add] at e2
  have e2' : (pollLoop maxRetries taskId polls).2.2.getD m 0 = 1000 * (3 / 2 : ℚ) ^ m := e2
  have hpow : (3 / 2 : ℚ) ^ m < (3 / 2 : ℚ) ^ n := by
    apply pow_lt_pow_right₀ _ hmn
    norm_num
  rw [e1', e2']
  linarith

/-- Witness for C4 on a concrete pending job with a budget of three polls,
    instantiated both at the first wait (n = 0, exactly 1000 ms) and at
    n = 1 (1500 ms, larger than every earlier wait). -/
theorem c4_witness :
    0 < (pollLoop 3 ("t1") (fun _ => PollOutcome.ok fixPending)).2.2.length
    ∧ 1 < (pollLoop 3 ("t1") (fun _ => PollOutcome.ok fixPending)).2.2.length
    ∧ ((pollLoop 3 ("t1") (fun _ => PollOutcome.ok fixPending)).2.2.getD 0 0
        = 1000 * (3 / 2 : ℚ) ^ 0)
    ∧ ((pollLoop 3 ("t1") (fun _ => PollOutcome.ok fixPending)).2.2.getD 1 0
          = 1000 * (3 / 2 : ℚ) ^ 1
        ∧ (∀ m, m < 1 →
            (pollLoop 3 ("t1") (fun _ => PollOutcome.ok fixPending)).2.2.getD m 0
              < (pollLoop 3 ("t1") (fun _ => PollOutcome.ok fixPending)).2.2.getD 1 0)
        ∧ (pollLoop 3 ("t1") (fun _ => PollOutcome.ok fixPending)).2.2.length ≤ 3) :=
  ⟨by decide, by decide,
   (c4_poll_backoff 3 ("t1") (fun _ => PollOutcome.ok fixPending) 0 (by decide)).1,
   c4_poll_backoff 3 ("t1") (fun _ => PollOutcome.ok fixPending) 1 (by decide)⟩

/-- C6: a transport error during one status check is swallowed: the loop does
    not fail, the retry counter increases by exactly one, and polling
    continues until the status leaves PENDING and RUNNING or the retry budget
    is exhausted. -/
theorem c6_transport_error_swallowed (maxRetries : Nat) (taskId : String)
    (polls : Nat → PollOutcome) (fuel : Nat) (st : PollState)
    (hretry : st.retries < maxRetries)
    (hstat : st.taskStatus = "PENDING" ∨ st.taskStatus = "RUNNING")
    (herr : polls st.retries = PollOutcome.transportError) :
    pollGo maxRetries taskId polls (fuel + 1) st
      = ((pollGo maxRetries taskId polls fuel { st with retries := st.retries + 1 }).1,
         NetCall.pollStatus taskId ::
           (pollGo maxRetries taskId polls fuel { st with retries := st.retries + 1 }).2.1,
         (1000 * (3 / 2 : ℚ) ^ st.retries) ::
           (pollGo maxRetries taskId polls fuel { st with retries := st.retries + 1 }).2.2)
    ∧ (maxRetries ≤ fuel + (st.retries + 1) →
        ((pollGo maxRetries taskId polls (fuel + 1) st).1.taskStatus = "PENDING" ∨
         (pollGo maxRetries taskId polls (fuel + 1) st).1.taskStatus = "RUNNING") →
        maxRetries ≤ (pollGo maxRetries taskId polls (fuel + 1) st).1.retries) := by
  constructor
  · rw [pollGo, if_pos ⟨hretry, hstat⟩, herr]
    rfl
  · exact fun hf => pollGo_exhausted maxRetries taskId polls (fuel + 1) st (by omega)

/-- The soft-timeout message is never the empty string. -/
theorem stillProcessingMessage_ne (m : String) : ¬ stillProcessingMessage m = "" := by
  intro h
  have h0 : (stillProcessingMessage m).length = 0 := by rw [h]; rfl
  rw [stillProcessingMessage] at h0
  simp only [String.length_append] at h0
  have h10 : ("The model ").length = 10 := rfl
  omega

/-- The placeholder result carries exactly the given nonempty code and
    message. -/
theorem getPlaceholderImage_errorInfo (c m : String) (model : Option String)
    (hc : ¬ c = "") (hm : ¬ m = "") :
    (getPlaceholderImage (some c) (some m) model).errorInfo
      = some { code := c, message := m } := by
  simp [getPlaceholderImage, truthy, strOr, hc, hm]

/-- A state that is still PENDING or RUNNING materializes into the
    STILL_PROCESSING placeholder with no further network call. -/
theorem materialize_still (callEnv : CallEnv) (modelName : String) (st : PollState)
    (hstat : st.taskStatus = "PENDING" ∨ st.taskStatus = "RUNNING") :
    materialize callEnv modelName st
      = (getPlaceholderImage (some ("STILL_PROCESSING"))
          (some (stillProcessingMessage modelName)) (some modelName), []) := by
  rcases hstat with h | h <;>
    rw [materialize, if_neg (by simp [h]), if_neg (by simp [h]), if_pos (by simp [h])]

/-- C5: if the poll retry budget is exhausted while the job status is still
    PENDING or RUNNING, generateAliyunImage returns (rather than throwing) the
    placeholder result with error code STILL_PROCESSING, and the budget was
    indeed consumed. -/
theorem c5_still_processing (cfg : EnvConfig) (gmr : String → Nat) (aenv : AliyunEnv)
    (params : AliyunParams) (data : SubmitData)
    (hsubmit : (aenv.calls 0).submit = SubmitOutcome.ok data)
    (hcode : truthy data.code = false)
    (htask : truthy data.task_id = true)
    (hstat :
      (pollLoop (gmr (strOr params.model cfg.ALIYUN_FLUX_MODEL)) (data.task_id.getD (""))
          (aenv.calls 0).polls).1.taskStatus = "PENDING" ∨
      (pollLoop (gmr (strOr params.model cfg.ALIYUN_FLUX_MODEL)) (data.task_id.getD (""))
          (aenv.calls 0).polls).1.taskStatus = "RUNNING") :
    (generateAliyunImage cfg gmr aenv params).1.errorInfo
        = some { code := "STILL_PROCESSING",
                 message := stillProcessingMessage (strOr params.model cfg.ALIYUN_FLUX_MODEL) }
    ∧ (generateAliyunImage cfg gmr aenv params).1.imageData = placeholderBase64
    ∧ gmr (strOr params.model cfg.ALIYUN_FLUX_MODEL)
        ≤ (pollLoop (gmr (strOr params.model cfg.ALIYUN_FLUX_MODEL)) (data.task_id.getD (""))
            (aenv.calls 0).polls).1.retries := by
  have h1 : attemptGeneration cfg gmr aenv params 0
      = makeAPIRequest gmr (aenv.calls 0) (buildRequestBody cfg aenv.rng params 0)
          (strOr params.model cfg.ALIYUN_FLUX_MODEL) := by
    rw [attemptGeneration, ite_self]
  have h2 := makeAPIRequest_ok_task gmr (aenv.calls 0) (buildRequestBody cfg aenv.rng params 0)
      (strOr params.model cfg.ALIYUN_FLUX_MODEL) data hsubmit hcode htask
  have h3 := materialize_still (aenv.calls 0) (strOr params.model cfg.ALIYUN_FLUX_MODEL)
      (pollLoop (gmr (strOr params.model cfg.ALIYUN_FLUX_MODEL)) (data.task_id.getD (""))
        (aenv.calls 0).polls).1 hstat
  have hres : (attemptGeneration cfg gmr aenv params 0).1
      = getPlaceholderImage (some ("STILL_PROCESSING"))
          (some (stillProcessingMessage (strOr params.model cfg.ALIYUN_FLUX_MODEL)))
          (some (strOr params.model cfg.ALIYUN_FLUX_MODEL)) := by
    rw [h1, h2]
    dsimp only
    rw [h3]
  have hsig : isTensorDeviceError (attemptGeneration cfg gmr aenv params 0).1.errorInfo
      = false := by
    rw [hres]
    simp [getPlaceholderImage, truthy, isTensorDeviceError]
  have hgen : (generateAliyunImage cfg gmr aenv params).1
      = getPlaceholderImage (some ("STILL_PROCESSING"))
          (some (stillProcessingMessage (strOr params.model cfg.ALIYUN_FLUX_MODEL)))
          (some (strOr params.model cfg.ALIYUN_FLUX_MODEL)) := by
    rw [generateAliyunImage, retryLoop_stop _ _ _ _ _ _ _ hsig, hres]
  refine ⟨?_, ?_, ?_⟩
  · rw [hgen]
    exact getPlaceholderImage_errorInfo _ _ _ (by decide)
      (stillProcessingMessage_ne (strOr params.model cfg.ALIYUN_FLUX_MODEL))
  · rw [hgen]; rfl
  · exact pollGo_exhausted (gmr (strOr params.model cfg.ALIYUN_FLUX_MODEL))
      (data.task_id.getD ("")) (aenv.calls 0).polls
      (gmr (strOr params.model cfg.ALIYUN_FLUX_MODEL)) initPollState (by simp [initPollState]) hstat

/-- Witness for C5 on a fixture job that stays PENDING for a budget of two
    status checks. -/
theorem c5_witness :
    ((fixAenv fixEnvPending).calls 0).submit
      = SubmitOutcome.ok { code := none, message := none, task_id := some ("t1") }
    ∧ truthy (none : Option String) = false
    ∧ truthy (some ("t1")) = true
    ∧ (pollLoop 2 ("t1") ((fixAenv fixEnvPending).calls 0).polls).1.taskStatus = "PENDING"
    ∧ (generateAliyunImage fixCfg (fun _ => 2) (fixAenv fixEnvPending) fixParams).1.errorInfo
        = some { code := "STILL_PROCESSING", message := stillProcessingMessage ("flux-schnell") } :=
  ⟨rfl, rfl, rfl, by decide,
   (c5_still_processing fixCfg (fun _ => 2) (fixAenv fixEnvPending) fixParams
      { code := none, message := none, task_id := some ("t1") }
      rfl rfl rfl (Or.inl (by decide))).1⟩

/-- C7: a submission response with an error code yields a failed result with
    exactly that code (and its message, defaulted when absent) and no further
    network call; one with no code and no task identifier yields NO_TASK_ID;
    only a response carrying a task identifier proceeds to polling. -/
theorem c7_submission_errors (gmr : String → Nat) (callEnv : CallEnv) (body : RequestBody)
    (modelName : String) (data : SubmitData)
    (hs : callEnv.submit = SubmitOutcome.ok data) :
    (truthy data.code = true →
      makeAPIRequest gmr callEnv body modelName
        = (getPlaceholderImage data.code data.message (some modelName),
           [NetCall.submit modelName body]))
    ∧ (truthy data.code = true →
      (makeAPIRequest gmr callEnv body modelName).1.errorInfo
        = some { code := data.code.getD (""), message := strOr data.message ("Unknown error") })
    ∧ (truthy data.code = false → truthy data.task_id = false →
      makeAPIRequest gmr callEnv body modelName
        = (getPlaceholderImage (some ("NO_TASK_ID")) (some ("No task ID returned from API"))
            (some modelName), [NetCall.submit modelName body]))
    ∧ (truthy data.code = false → truthy data.task_id = true →
      makeAPIRequest gmr callEnv body modelName
        = ((materialize callEnv modelName
              (pollLoop (gmr modelName) (data.task_id.getD ("")) callEnv.polls).1).1,
           NetCall.submit modelName body ::
             ((pollLoop (gmr modelName) (data.task_id.getD ("")) callEnv.polls).2.1
               ++ (materialize callEnv modelName
                     (pollLoop (gmr modelName) (data.task_id.getD ("")) callEnv.polls).1).2))) := by
  have hfirst : truthy data.code = true →
      makeAPIRequest gmr callEnv body modelName
        = (getPlaceholderImage data.code data.message (some modelName),
           [NetCall.submit modelName body]) := by
    intro hc
    rw [makeAPIRequest, hs]
    dsimp only
    rw [if_pos hc]
  refine ⟨hfirst, ?_, ?_, ?_⟩
  · intro hc
    rw [hfirst hc]
    simp [getPlaceholderImage, hc]
  · intro hc ht
    rw [makeAPIRequest, hs]
    dsimp only
    rw [if_neg (by simp [hc]), if_pos ht]
  · intro hc ht
    exact makeAPIRequest_ok_task gmr callEnv body modelName data hs hc ht

/-- Witness for C7 on a fixture submission rejected with a provider code. -/
theorem c7_witness :
    fixEnvRejected.submit = SubmitOutcome.ok
      { code := some ("Throttling"), message := some ("Requests throttled"), task_id := none }
    ∧ truthy (some ("Throttling")) = true
    ∧ makeAPIRequest (fun _ => 2) fixEnvRejected fixBody ("flux-schnell")
        = (getPlaceholderImage (some ("Throttling")) (some ("Requests throttled"))
            (some ("flux-schnell")), [NetCall.submit ("flux-schnell") fixBody]) :=
  ⟨rfl, rfl,
   (c7_submission_errors (fun _ => 2) fixEnvRejected fixBody ("flux-schnell")
      { code := some ("Throttling"), message := some ("Requests throttled"), task_id := none }
      rfl).1 rfl⟩

/-- C1 counterexample: a 999 by 999 request through the hosting POST route is
    not rejected with INVALID_SIZE: the route performs no size validation and
    issues an outbound submission carrying size 999*999; the surfaced error
    here is NO_TASK_ID, not INVALID_SIZE. -/
theorem c1_counterexample :
    (availableSizes.any (fun s =>
        s.1 == natOr (some 999) 1024 && s.2 == natOr (some 999) 1024)) = false
    ∧ (postRoute fixCfg (fun _ => 2) (fixAenv fixEnvNoTask) true ("a cat") none
        (some 999) (some 999) none).2
      = [NetCall.submit ("flux-schnell") fixBody999]
    ∧ routeErrorCode (postRoute fixCfg (fun _ => 2) (fixAenv fixEnvNoTask) true ("a cat") none
        (some 999) (some 999) none).1 = some ("NO_TASK_ID")
    ∧ ¬ routeErrorCode (postRoute fixCfg (fun _ => 2) (fixAenv fixEnvNoTask) true ("a cat") none
        (some 999) (some 999) none).1 = some ("INVALID_SIZE") := by
  refine ⟨by decide, by decide, by decide, by decide⟩

/-- C1 (amended): a request through the generateImage tool whose defaulted
    size pair is outside the allowed set is rejected with success false and
    error code INVALID_SIZE before any outbound network call. -/
theorem c1_invalid_size_tool (cfg : EnvConfig) (gmr : String → Nat) (tenv : ToolEnv)
    (prompt : String) (negative_prompt : Option String)
    (width height : Option Nat) (model : Option String)
    (hsize : (availableSizes.any (fun s =>
        s.1 == natOr width 1024 && s.2 == natOr height 1024)) = false) :
    (generateImageExecute cfg gmr tenv prompt negative_prompt width height model).1.success
        = false
    ∧ (generateImageExecute cfg gmr tenv prompt negative_prompt width height model).1.errorInfo
        = some { code := "INVALID_SIZE",
                 message := "Invalid image size: " ++ toString (natOr width 1024) ++ "x"
                   ++ toString (natOr height 1024),
                 allErrors := none }
    ∧ (generateImageExecute cfg gmr tenv prompt negative_prompt width height model).2 = [] := by
  rw [generateImageExecute, if_pos hsize]
  exact ⟨rfl, rfl, rfl⟩

/-- Witness for the amended C1 at the concrete invalid size 999 by 999. -/
theorem c1_witness :
    (availableSizes.any (fun s =>
        s.1 == natOr (some 999) 1024 && s.2 == natOr (some 999) 1024)) = false
    ∧ ((generateImageExecute fixCfg (fun _ => 2) (fixTenv fixEnvNoTask) ("a cat") none
          (some 999) (some 999) none).1.success = false
       ∧ (generateImageExecute fixCfg (fun _ => 2) (fixTenv fixEnvNoTask) ("a cat") none
            (some 999) (some 999) none).1.errorInfo
          = some { code := "INVALID_SIZE",
                   message := "Invalid image size: " ++ toString (natOr (some 999) 1024) ++ "x"
                     ++ toString (natOr (some 999) 1024),
                   allErrors := none }
       ∧ (generateImageExecute fixCfg (fun _ => 2) (fixTenv fixEnvNoTask) ("a cat") none
            (some 999) (some 999) none).2 = []) :=
  ⟨by decide,
   c1_invalid_size_tool fixCfg (fun _ => 2) (fixTenv fixEnvNoTask) ("a cat") none
     (some 999) (some 999) none (by decide)⟩

/-- C2 counterexample: on the transient tensor-device fault the model is
    retried, but not necessarily with a different seed: with a random oracle
    that repeats the value 7, all four attempts submit the identical request
    body, seed included. -/
theorem c2_counterexample :
    isTensorDeviceError
        (attemptGeneration fixCfg (fun _ => 5) (fixAenv fixEnvTensor) fixParams 0).1.errorInfo
      = true
    ∧ (generateAliyunImage fixCfg (fun _ => 5) (fixAenv fixEnvTensor) fixParams).2
      = [NetCall.submit ("flux-schnell") fixBody, NetCall.pollStatus ("t1"),
         NetCall.submit ("flux-schnell") fixBody, NetCall.pollStatus ("t1"),
         NetCall.submit ("flux-schnell") fixBody, NetCall.pollStatus ("t1"),
         NetCall.submit ("flux-schnell") fixBody, NetCall.pollStatus ("t1")]
    ∧ fixBody.parameters.seed = 7 := by
  refine ⟨by decide, by decide, by decide⟩

/-- C2 (amended): after an attempt fails with the tensor-device signature,
    the same model is re-attempted with a freshly drawn random seed (a new
    oracle draw which ignores the caller seed but may repeat an earlier
    value), and at most three such retries happen before the last result is
    surfaced. -/
theorem c2_retry_fresh_seed (cfg : EnvConfig) (gmr : String → Nat) (aenv : AliyunEnv)
    (params : AliyunParams)
    (h0 : isTensorDeviceError (attemptGeneration cfg gmr aenv params 0).1.errorInfo = true) :
    ((attemptGeneration cfg gmr aenv params 1).2.head?
        = some (NetCall.submit (strOr params.model cfg.ALIYUN_FLUX_MODEL)
            (buildRequestBody cfg aenv.rng params 1)))
    ∧ (buildRequestBody cfg aenv.rng params 1).parameters.seed = aenv.rng 1
    ∧ generateAliyunImage cfg gmr aenv params
        = (if isTensorDeviceError (attemptGeneration cfg gmr aenv params 1).1.errorInfo
              = false then
            ((attemptGeneration cfg gmr aenv params 1).1,
             (attemptGeneration cfg gmr aenv params 0).2
               ++ (attemptGeneration cfg gmr aenv params 1).2)
          else if isTensorDeviceError (attemptGeneration cfg gmr aenv params 2).1.errorInfo
              = false then
            ((attemptGeneration cfg gmr aenv params 2).1,
             (attemptGeneration cfg gmr aenv params 0).2
               ++ (attemptGeneration cfg gmr aenv params 1).2
               ++ (attemptGeneration cfg gmr aenv params 2).2)
          else
            ((attemptGeneration cfg gmr aenv params 3).1,
             (attemptGeneration cfg gmr aenv params 0).2
               ++ (attemptGeneration cfg gmr aenv params 1).2
               ++ (attemptGeneration cfg gmr aenv params 2).2
               ++ (attemptGeneration cfg gmr aenv params 3).2)) := by
  refine ⟨attemptGeneration_head cfg gmr aenv params 1, rfl, ?_⟩
  rw [generateAliyunImage]
  have hmax : MAX_INTERNAL_ERROR_RETRIES = 3 := rfl
  rw [hmax]
  rw [retryLoop, if_pos ⟨by decide, h0⟩]
  by_cases h1 : isTensorDeviceError (attemptGeneration cfg gmr aenv params 1).1.errorInfo = false
  · rw [if_pos h1]
    exact retryLoop_stop cfg gmr aenv params _ _ _ h1
  · have h1t : isTensorDeviceError (attemptGeneration cfg gmr aenv params 1).1.errorInfo
        = true := by simpa using h1
    rw [if_neg h1]
    rw [retryLoop, if_pos ⟨by decide, h1t⟩]
    by_cases h2 : isTensorDeviceError (attemptGeneration cfg gmr aenv params 2).1.errorInfo
        = false
    · rw [if_pos h2]
      exact retryLoop_stop cfg gmr aenv params _ _ _ h2
    · have h2t : isTensorDeviceError (attemptGeneration cfg gmr aenv params 2).1.errorInfo
          = true := by simpa using h2
      rw [if_neg h2]
      rw [retryLoop, if_pos ⟨by decide, h2t⟩]
      rfl

/-- Witness for the amended C2 on the tensor-fault fixture. -/
theorem c2_witness :
    isTensorDeviceError
        (attemptGeneration fixCfg (fun _ => 5) (fixAenv fixEnvTensor) fixParams 0).1.errorInfo
      = true
    ∧ (buildRequestBody fixCfg (fixAenv fixEnvTensor).rng fixParams 1).parameters.seed
        = (fixAenv fixEnvTensor).rng 1 :=
  ⟨by decide,
   (c2_retry_fresh_seed fixCfg (fun _ => 5) (fixAenv fixEnvTensor) fixParams (by decide)).2.1⟩

set_option maxRecDepth 8000 in
/-- C8 counterexample: when the second URL extraction succeeds but the
    download fails, the materializer returns an IMAGE_DOWNLOAD_ERROR failure,
    not a success. -/
theorem c8_counterexample :
    truthy fixSucceeded.result_url = true
    ∧ materialize fixEnvTensor ("flux-schnell") fixStateNoUrl
        = materializeFromLast fixEnvTensor ("flux-schnell") fixSucceeded
    ∧ (materializeFromLast fixEnvTensor ("flux-schnell") fixSucceeded).1.errorInfo
        = some { code := "IMAGE_DOWNLOAD_ERROR", message := "Failed to download image" }
    ∧ ¬ (materializeFromLast fixEnvTensor ("flux-schnell") fixSucceeded).1.errorInfo = none := by
  refine ⟨by decide, by decide, by decide, by decide⟩

/-- C8 (amended): on a SUCCEEDED status with no captured result URL the
    materializer re-attempts extraction from the last raw status response; it
    returns NO_IMAGE_URL (with no download request) exactly when that second
    extraction yields no URL; when it yields one, the URL is downloaded: a
    success with a base64 data URL when the download works, and an
    IMAGE_DOWNLOAD_ERROR failure when it does not. -/
theorem c8_reextraction (callEnv : CallEnv) (modelName : String) (st : PollState)
    (last : StatusOutput)
    (hst : st.taskStatus = "SUCCEEDED")
    (hres : truthy st.taskResult = false)
    (hlast : st.lastApiResponse = some last) :
    materialize callEnv modelName st = materializeFromLast callEnv modelName last
    ∧ (truthy last.result_url = false →
        (materializeFromLast callEnv modelName last).1.errorInfo
          = some { code := "NO_IMAGE_URL",
                   message := "No image URL found in successful response" }
        ∧ (materializeFromLast callEnv modelName last).2 = [])
    ∧ (∀ b64, truthy last.result_url = true → callEnv.download = DownloadOutcome.ok b64 →
        materializeFromLast callEnv modelName last
          = ({ imageData := "data:image/png;base64," ++ b64, errorInfo := none,
               model := some modelName },
             [NetCall.download (last.result_url.getD (""))]))
    ∧ (truthy last.result_url = true → callEnv.download = DownloadOutcome.failed →
        (materializeFromLast callEnv modelName last).1.errorInfo
          = some { code := "IMAGE_DOWNLOAD_ERROR", message := "Failed to download image" }) := by
  refine ⟨?_, ?_, ?_, ?_⟩
  · rw [materialize, if_neg (by simp [hres]), if_pos hst, hlast]
  · intro hurl
    rw [materializeFromLast, if_neg (by simp [hurl])]
    exact ⟨getPlaceholderImage_errorInfo _ _ _ (by decide) (by decide), rfl⟩
  · intro b64 hurl hd
    rw [materializeFromLast, if_pos hurl, hd]
  · intro hurl hd
    rw [materializeFromLast, if_pos hurl, hd]
    exact getPlaceholderImage_errorInfo _ _ _ (by decide) (by decide)

/-- Witness for the amended C8 on the fixture state without a captured URL. -/
theorem c8_witness :
    (fixStateNoUrl.taskStatus = "SUCCEEDED"
      ∧ truthy fixStateNoUrl.taskResult = false
      ∧ fixStateNoUrl.lastApiResponse = some fixSucceeded)
    ∧ materialize fixEnvSuccess ("flux-schnell") fixStateNoUrl
        = materializeFromLast fixEnvSuccess ("flux-schnell") fixSucceeded :=
  ⟨⟨rfl, rfl, rfl⟩,
   (c8_reextraction fixEnvSuccess ("flux-schnell") fixStateNoUrl fixSucceeded rfl rfl rfl).1⟩

/-- C9 counterexample: the size string posted for a validated 1024 by 768
    request is 1024*768 with an asterisk separator, not of the form WxH with
    a literal x. -/
theorem c9_counterexample :
    (attemptGeneration fixCfg (fun _ => 5) (fixAenv fixEnvTensor) fixParams 0).2.head?
      = some (NetCall.submit ("flux-schnell") fixBody)
    ∧ fixBody.parameters.size = "1024*768"
    ∧ ¬ fixBody.parameters.size = "1024x768" := by
  refine ⟨by decide, by decide, by decide⟩

/-- C9 (amended): every attempt posts a body of shape model, input (prompt,
    negative_prompt defaulted to the empty string) and parameters (size, seed,
    steps defaulted to 20), where size is the requested width, an asterisk,
    then the requested height. -/
theorem c9_request_body_shape (cfg : EnvConfig) (gmr : String → Nat) (aenv : AliyunEnv)
    (params : AliyunParams) (count : Nat) :
    (attemptGeneration cfg gmr aenv params count).2.head?
      = some (NetCall.submit (strOr params.model cfg.ALIYUN_FLUX_MODEL)
          { model := strOr params.model cfg.ALIYUN_FLUX_MODEL,
            input := { prompt := params.prompt,
                       negative_prompt := strOr params.negative_prompt ("") },
            parameters :=
              { size := toString (natOr params.width 1024) ++ "*"
                  ++ toString (natOr params.height 1024),
                seed := buildSeed aenv.rng params count,
                steps := natOr params.steps (natOr params.num_inference_steps 20) } }) :=
  attemptGeneration_head cfg gmr aenv params count

/-- The substring truncation keeps exactly the minimum of the cut length and
    the original length. -/
theorem jsSubstring_length (s : String) (n : Nat) :
    (jsSubstring s n).length = min n s.length := by
  cases s with
  | mk data => simp [jsSubstring, String.length]

/-- If every remaining candidate fails, the tool loop produces the composite
    failure whose error list extends the accumulator with one entry per
    candidate, in order. -/
theorem toolLoop_all_failed (cfg : EnvConfig) (gmr : String → Nat) (tenv : ToolEnv)
    (prompt : String) (np : Option String) (rw rh : Nat) :
    ∀ (models : List String) (idx : Nat) (accE : List ModelError) (accT : List NetCall),
      (∀ i, i < models.length →
        ((toolAttempt cfg gmr tenv prompt np rw rh (idx + i)
            (models.getD i (""))).1.errorInfo).isSome = true) →
      ∃ errs : List ModelError,
        (toolLoop cfg gmr tenv prompt np rw rh models idx accE accT).1
          = allFailedResult (accE ++ errs)
        ∧ errs.map ModelError.model = models := by
  intro models
  induction models with
  | nil =>
    intro idx accE accT _
    exact ⟨[], by simp [toolLoop], rfl⟩
  | cons m rest ih =>
    intro idx accE accT h
    have h0 := h 0 (by simp)
    rw [Option.isSome_iff_exists] at h0
    obtain ⟨e, he⟩ := h0
    have he' : (toolAttempt cfg gmr tenv prompt np rw rh idx m).1.errorInfo = some e := by
      simpa using he
    have step : toolLoop cfg gmr tenv prompt np rw rh (m :: rest) idx accE accT
        = toolLoop cfg gmr tenv prompt np rw rh rest (idx + 1)
            (accE ++ [{ model := m, error := e }])
            (accT ++ (toolAttempt cfg gmr tenv prompt np rw rh idx m).2) := by
      rw [toolLoop, he']
    obtain ⟨errs, h1, h2⟩ := ih (idx + 1) (accE ++ [{ model := m, error := e }])
        (accT ++ (toolAttempt cfg gmr tenv prompt np rw rh idx m).2)
        (fun i hi => by
          have hh := h (i + 1) (by simpa using Nat.succ_lt_succ hi)
          rw [List.getD_cons_succ, show idx + (i + 1) = idx + 1 + i from by omega] at hh
          exact hh)
    refine ⟨{ model := m, error := e } :: errs, ?_, by simp [h2]⟩
    rw [step, h1, List.append_assoc]
    rfl

/-- C3: when the size is valid and every candidate model fails, the tool
    returns success false with a composite error listing exactly one entry per
    attempted model in attempt order, coded ALL_MODELS_FAILED, or
    SERVER_MODEL_ERROR with the server-side message when some recorded error
    matches the transient tensor-device signature. -/
theorem c3_all_models_failed (cfg : EnvConfig) (gmr : String → Nat) (tenv : ToolEnv)
    (prompt : String) (np : Option String) (width height : Option Nat) (model : Option String)
    (hvalid : (availableSizes.any (fun s =>
        s.1 == natOr width 1024 && s.2 == natOr height 1024)) = true)
    (hfail : ∀ i, i < (modelsToTry cfg model).length →
      ((toolAttempt cfg gmr tenv prompt np (natOr width 1024) (natOr height 1024) i
          ((modelsToTry cfg model).getD i (""))).1.errorInfo).isSome = true) :
    ∃ errs : List ModelError,
      errs.map ModelError.model = modelsToTry cfg model
      ∧ (generateImageExecute cfg gmr tenv prompt np width height model).1.success = false
      ∧ (generateImageExecute cfg gmr tenv prompt np width height model).1.errorInfo
          = some { code :=
                     if (errs.any (fun e => isTensorDeviceError (some e.error))) = true
                     then "SERVER_MODEL_ERROR" else "ALL_MODELS_FAILED",
                   message :=
                     if (errs.any (fun e => isTensorDeviceError (some e.error))) = true
                     then serverModelErrorMessage else allModelsFailedMessage,
                   allErrors := some errs } := by
  obtain ⟨errs, h1, h2⟩ := toolLoop_all_failed cfg gmr tenv prompt np
      (natOr width 1024) (natOr height 1024) (modelsToTry cfg model) 0 [] []
      (fun i hi => by simpa using hfail i hi)
  have hexec : (generateImageExecute cfg gmr tenv prompt np width height model).1
      = (toolLoop cfg gmr tenv prompt np (natOr width 1024) (natOr height 1024)
          (modelsToTry cfg model) 0 [] []).1 := by
    rw [generateImageExecute, if_neg (by simp [hvalid])]
  refine ⟨errs, h2, ?_, ?_⟩
  · rw [hexec, h1]
    rfl
  · rw [hexec, h1]
    simp only [List.nil_append]
    rfl

/-- Witness for C3: both fixture candidates fail with the tensor-device
    fault, so the composite error is SERVER_MODEL_ERROR with both entries. -/
theorem c3_witness :
    ((availableSizes.any (fun s =>
        s.1 == natOr none 1024 && s.2 == natOr none 1024)) = true)
    ∧ (∀ i, i < (modelsToTry fixCfg none).length →
        ((toolAttempt fixCfg (fun _ => 5) (fixTenv fixEnvTensor) ("a cat") none 1024 1024 i
            ((modelsToTry fixCfg none).getD i (""))).1.errorInfo).isSome = true)
    ∧ ∃ errs : List ModelError,
        errs.map ModelError.model = modelsToTry fixCfg none
        ∧ (generateImageExecute fixCfg (fun _ => 5) (fixTenv fixEnvTensor) ("a cat") none
            none none none).1.success = false
        ∧ (generateImageExecute fixCfg (fun _ => 5) (fixTenv fixEnvTensor) ("a cat") none
            none none none).1.errorInfo
          = some { code :=
                     if (errs.any (fun e => isTensorDeviceError (some e.error))) = true
                     then "SERVER_MODEL_ERROR" else "ALL_MODELS_FAILED",
                   message :=
                     if (errs.any (fun e => isTensorDeviceError (some e.error))) = true
                     then serverModelErrorMessage else allModelsFailedMessage,
                   allErrors := some errs } :=
  ⟨by decide, by decide,
   c3_all_models_failed fixCfg (fun _ => 5) (fixTenv fixEnvTensor) ("a cat") none
     none none none (by decide) (by decide)⟩

/-- A successful tool result always stems from some candidate whose provider
    attempt succeeded, and carries that attempt's image data truncated to the
    first 100000 characters. -/
theorem toolLoop_success (cfg : EnvConfig) (gmr : String → Nat) (tenv : ToolEnv)
    (prompt : String) (np : Option String) (rw rh : Nat) :
    ∀ (models : List String) (idx : Nat) (accE : List ModelError) (accT : List NetCall),
      (toolLoop cfg gmr tenv prompt np rw rh models idx accE accT).1.success = true →
      ∃ i, i < models.length
        ∧ (toolAttempt cfg gmr tenv prompt np rw rh (idx + i)
              (models.getD i (""))).1.errorInfo = none
        ∧ (toolLoop cfg gmr tenv prompt np rw rh models idx accE accT).1.imageData
            = some (jsSubstring
                ((toolAttempt cfg gmr tenv prompt np rw rh (idx + i)
                    (models.getD i (""))).1.imageData) 100000)
        ∧ (toolLoop cfg gmr tenv prompt np rw rh models idx accE accT).1.model
            = some (models.getD i ("")) := by
  intro models
  induction models with
  | nil =>
    intro idx accE accT h
    simp [toolLoop, allFailedResult] at h
  | cons m rest ih =>
    intro idx accE accT h
    cases he : (toolAttempt cfg gmr tenv prompt np rw rh idx m).1.errorInfo with
    | none =>
      have step : toolLoop cfg gmr tenv prompt np rw rh (m :: rest) idx accE accT
          = (successToolResult (toolAttempt cfg gmr tenv prompt np rw rh idx m).1.imageData m
              (tenv.uuid idx),
             accT ++ (toolAttempt cfg gmr tenv prompt np rw rh idx m).2) := by
        rw [toolLoop, he]
      refine ⟨0, by simp, by simpa using he, ?_, ?_⟩
      · rw [step]; rfl
      · rw [step]; rfl
    | some e =>
      have step : toolLoop cfg gmr tenv prompt np rw rh (m :: rest) idx accE accT
          = toolLoop cfg gmr tenv prompt np rw rh rest (idx + 1)
              (accE ++ [{ model := m, error := e }])
              (accT ++ (toolAttempt cfg gmr tenv prompt np rw rh idx m).2) := by
        rw [toolLoop, he]
      rw [step] at h
      obtain ⟨i, hi, h1, h2, h3⟩ := ih (idx + 1)
          (accE ++ [{ model := m, error := e }])
          (accT ++ (toolAttempt cfg gmr tenv prompt np rw rh idx m).2) h
      refine ⟨i + 1, by simpa using Nat.succ_lt_succ hi, ?_, ?_, ?_⟩
      · rw [List.getD_cons_succ, show idx + (i + 1) = idx + 1 + i from by omega]
        exact h1
      · rw [step, List.getD_cons_succ, show idx + (i + 1) = idx + 1 + i from by omega]
        exact h2
      · rw [step, List.getD_cons_succ]
        exact h3

/-- C10: every successful orchestrator result returns the image data of the
    succeeding attempt truncated to its first 100000 characters, so a payload
    longer than that is silently cut short even though success is true. -/
theorem c10_truncation (cfg : EnvConfig) (gmr : String → Nat) (tenv : ToolEnv)
    (prompt : String) (np : Option String) (width height : Option Nat) (model : Option String)
    (hsucc : (generateImageExecute cfg gmr tenv prompt np width height model).1.success
        = true) :
    ∃ i, i < (modelsToTry cfg model).length
      ∧ (toolAttempt cfg gmr tenv prompt np (natOr width 1024) (natOr height 1024) i
            ((modelsToTry cfg model).getD i (""))).1.errorInfo = none
      ∧ (generateImageExecute cfg gmr tenv prompt np width height model).1.imageData
          = some (jsSubstring
              ((toolAttempt cfg gmr tenv prompt np (natOr width 1024) (natOr height 1024) i
                  ((modelsToTry cfg model).getD i (""))).1.imageData) 100000)
      ∧ (generateImageExecute cfg gmr tenv prompt np width height model).1.imageData.map
            String.length
          = some (min 100000
              ((toolAttempt cfg gmr tenv prompt np (natOr width 1024) (natOr height 1024) i
                  ((modelsToTry cfg model).getD i (""))).1.imageData.length)) := by
  by_cases hv : (availableSizes.any (fun s =>
      s.1 == natOr width 1024 && s.2 == natOr height 1024)) = false
  · rw [generateImageExecute, if_pos hv] at hsucc
    simp [invalidSizeResult] at hsucc
  · have hexec : generateImageExecute cfg gmr tenv prompt np width height model
        = toolLoop cfg gmr tenv prompt np (natOr width 1024) (natOr height 1024)
            (modelsToTry cfg model) 0 [] [] := by
      rw [generateImageExecute, if_neg hv]
    rw [hexec] at hsucc
    obtain ⟨i, hi, h1, h2, h3⟩ := toolLoop_success cfg gmr tenv prompt np
        (natOr width 1024) (natOr height 1024) (modelsToTry cfg model) 0 [] [] hsucc
    refine ⟨i, hi, by simpa using h1, ?_, ?_⟩
    · rw [hexec]
      simpa using h2
    · rw [hexec]
      have h2' := h2
      simp only [Nat.zero_add] at h2'
      rw [h2']
      simp [jsSubstring_length]

/-- Witness for C10 on a fixture job that succeeds at the first candidate. -/
theorem c10_witness :
    (generateImageExecute fixCfg (fun _ => 2) (fixTenv fixEnvSuccess) ("a cat") none
        none none none).1.success = true
    ∧ ∃ i, i < (modelsToTry fixCfg none).length
        ∧ (toolAttempt fixCfg (fun _ => 2) (fixTenv fixEnvSuccess) ("a cat") none 1024 1024 i
              ((modelsToTry fixCfg none).getD i (""))).1.errorInfo = none
        ∧ (generateImageExecute fixCfg (fun _ => 2) (fixTenv fixEnvSuccess) ("a cat") none
              none none none).1.imageData
            = some (jsSubstring
                ((toolAttempt fixCfg (fun _ => 2) (fixTenv fixEnvSuccess) ("a cat") none 1024 1024 i
                    ((modelsToTry fixCfg none).getD i (""))).1.imageData) 100000)
        ∧ (generateImageExecute fixCfg (fun _ => 2) (fixTenv fixEnvSuccess) ("a cat") none
              none none none).1.imageData.map String.length
            = some (min 100000
                ((toolAttempt fixCfg (fun _ => 2) (fixTenv fixEnvSuccess) ("a cat") none 1024 1024 i
                    ((modelsToTry fixCfg none).getD i (""))).1.imageData.length)) :=
  ⟨by decide,
   c10_truncation fixCfg (fun _ => 2) (fixTenv fixEnvSuccess) ("a cat") none
     none none none (by decide)⟩

/-- Witness for C6 on a concrete transport error at the first status check. -/
theorem c6_witness :
    (initPollState.retries < 2
      ∧ (initPollState.taskStatus = "PENDING" ∨ initPollState.taskStatus = "RUNNING"))
    ∧ pollGo 2 ("t1") (fun _ => PollOutcome.transportError) 2 initPollState
        = ((pollGo 2 ("t1") (fun _ => PollOutcome.transportError) 1
              { initPollState with retries := initPollState.retries + 1 }).1,
           NetCall.pollStatus ("t1") ::
             (pollGo 2 ("t1") (fun _ => PollOutcome.transportError) 1
               { initPollState with retries := initPollState.retries + 1 }).2.1,
           (1000 * (3 / 2 : ℚ) ^ initPollState.retries) ::
             (pollGo 2 ("t1") (fun _ => PollOutcome.transportError) 1
               { initPollState with retries := initPollState.retries + 1 }).2.2) :=
  ⟨⟨by decide, Or.inl rfl⟩,
   (c6_transport_error_swallowed 2 ("t1") (fun _ => PollOutcome.transportError) 1 initPollState
      (by decide) (Or.inl rfl) rfl).1⟩

end AIChatbot
